import Mathlib

/-!
Verification of the servo-toggle controller in `src/ricks_arduino.cpp`.

Shallow embedding conventions:

* C `int` positions become `Int`; the byte payload (`byte* message` with
  its `unsigned int length`) becomes the `List Nat` of the delivered
  bytes; C strings become `List Nat` of their ASCII codes.
* The servo is represented by the last position written to it
  (`myServo.read()` returns the last commanded position), kept in
  `SysState.servoPos`; every operation additionally returns the explicit
  list of position writes it issues, so claims about write sequences are
  statable.
* The MQTT client is represented by its observable events (connection
  attempts, subscriptions, delays).  The blocking retry loop of
  `reconnect` is run on fuel: `none` means the loop is still retrying
  after `fuel` iterations, `some tr` means it returned with event trace
  `tr`.
-/

namespace RicksWrist

/-- `int servoOpenPosition = 140;` (line 19). -/
def servoOpenPosition : Int := 140

/-- `int servoClosePosition = 30;` (line 20). -/
def servoClosePosition : Int := 30

/-- `const char* mqtt_topic = "home/device_commands";` (line 14), as
ASCII bytes. -/
def mqtt_topic : List Nat :=
  [104, 111, 109, 101, 47, 100, 101, 118, 105, 99, 101, 95, 99, 111,
   109, 109, 97, 110, 100, 115]

/-- The mutable state the claims are about: the global flag
`bool isServoOpen` (line 21) and the servo position, represented by the
last value written to the servo. -/
structure SysState where
  isServoOpen : Bool
  servoPos : Int
  deriving Repr, DecidableEq

/-- The sequence of positions `moveServo` (lines 26–39) writes when the
servo currently reads `currentPosition` and is asked to move to
`targetPosition`: if `currentPosition < targetPosition` the ascending
`for` loop writes `currentPosition, …, targetPosition`; otherwise the
descending loop writes `currentPosition, …, targetPosition` downwards
(a single write of `currentPosition` when the two coincide). -/
def moveServoWrites (currentPosition targetPosition : Int) : List Int :=
  if currentPosition < targetPosition then
    (List.range ((targetPosition - currentPosition).toNat + 1)).map
      (fun i : Nat => currentPosition + (i : Int))
  else
    (List.range ((currentPosition - targetPosition).toNat + 1)).map
      (fun i : Nat => currentPosition - (i : Int))

/-- One invocation of the actuator driver: the target it was asked to
reach and the position writes it issued. -/
structure MoveCall where
  target : Int
  writes : List Int
  deriving Repr, DecidableEq

/-- `moveServo(targetPosition)` (lines 26–39) as a state transformer:
it reads the current position, sweeps to the target (the last write of
`moveServoWrites` is always the target, so afterwards the servo reads
`targetPosition`), and leaves `isServoOpen` alone.  The issued call is
returned for the trace. -/
def moveServo (targetPosition : Int) (s : SysState) : SysState × MoveCall :=
  ({ s with servoPos := targetPosition },
   ⟨targetPosition, moveServoWrites s.servoPos targetPosition⟩)

/-- C `tolower` restricted to bytes: uppercase ASCII letters (65–90) are
shifted to lowercase, everything else is unchanged.  This is what
`String::equalsIgnoreCase` folds each character through. -/
def toLowerByte (b : Nat) : Nat :=
  if 65 ≤ b && b ≤ 90 then b + 32 else b

/-- Arduino `String::equalsIgnoreCase`: equal length and case-folded
bytewise equality, i.e. equality of the case-folded sequences. -/
def equalsIgnoreCase (a b : List Nat) : Bool :=
  a.map toLowerByte == b.map toLowerByte

/-- The trigger phrase `"halloween 1"` (line 72), as ASCII bytes. -/
def phraseHalloween1 : List Nat :=
  [104, 97, 108, 108, 111, 119, 101, 101, 110, 32, 49]

/-- The trigger phrase `"halloween1 activated"` (line 73), as ASCII
bytes. -/
def phraseHalloween1Activated : List Nat :=
  [104, 97, 108, 108, 111, 119, 101, 101, 110, 49, 32, 97, 99, 116,
   105, 118, 97, 116, 101, 100]

/-- The trigger phrase `"activate halloween 1"` (line 74), as ASCII
bytes. -/
def phraseActivateHalloween1 : List Nat :=
  [97, 99, 116, 105, 118, 97, 116, 101, 32, 104, 97, 108, 108, 111,
   119, 101, 101, 110, 32, 49]

/-- The condition of lines 72–74: the payload equals, case-insensitively,
one of the three trigger phrases. -/
def isTrigger (message : List Nat) : Bool :=
  equalsIgnoreCase message phraseHalloween1 ||
  equalsIgnoreCase message phraseHalloween1Activated ||
  equalsIgnoreCase message phraseActivateHalloween1

/-- `callback(topic, message, length)` (lines 65–83).  `messageTemp` is
the concatenation of the delivered bytes, here the payload itself; on a
trigger match the servo is toggled (lines 75–81), otherwise nothing
happens.  Returns the new state and the `moveServo` calls issued. -/
def callback (topic : List Nat) (message : List Nat) (s : SysState) :
    SysState × List MoveCall :=
  let messageTemp := message
  if isTrigger messageTemp then
    if s.isServoOpen then
      let r := moveServo servoClosePosition s
      ({ r.1 with isServoOpen := false }, [r.2])
    else
      let r := moveServo servoOpenPosition s
      ({ r.1 with isServoOpen := true }, [r.2])
  else
    (s, [])

/-- Observable actions of the MQTT client during `reconnect`/`loop`. -/
inductive MqttEvent where
  | connectAttempt : Nat → Bool → MqttEvent
  | subscribeTopic : List Nat → MqttEvent
  | delayMs : Nat → MqttEvent
  deriving Repr, DecidableEq

/-- The `while (!client.connected())` body of `reconnect` (lines 86–92),
started at attempt index `i`.  `attempts j` tells whether the `j`-th
`client.connect("ESP8266Client", mqtt_user, mqtt_password)` succeeds.
On success the client subscribes to `mqtt_topic` and the loop exits
(`client.connected()` now holds); on failure it delays 5000 ms and
retries.  `fuel` bounds the number of iterations we unfold: `none`
means the loop has not returned within `fuel` iterations. -/
def reconnectLoop (attempts : Nat → Bool) (i fuel : Nat) :
    Option (List MqttEvent) :=
  match fuel with
  | 0 => none
  | Nat.succ f =>
    if attempts i then
      some [MqttEvent.connectAttempt i true, MqttEvent.subscribeTopic mqtt_topic]
    else
      Option.map
        (fun es => MqttEvent.connectAttempt i false :: MqttEvent.delayMs 5000 :: es)
        (reconnectLoop attempts (i + 1) f)

/-- `reconnect()` (lines 85–93) as a state transformer: if the client is
already connected the `while` guard fails immediately and no event is
produced; otherwise the retry loop runs.  The program state `s` is
passed through untouched — the function body never mentions
`isServoOpen` or the servo. -/
def reconnect (connected : Bool) (attempts : Nat → Bool) (fuel : Nat)
    (s : SysState) : Option (List MqttEvent) × SysState :=
  (if connected then some [] else reconnectLoop attempts 0 fuel, s)

/-- `client.loop()` (line 99): dispatches each buffered inbound message
(topic, payload) to the registered `callback` (spec §4.4, `poll`). -/
def clientLoop (msgs : List (List Nat × List Nat)) (s : SysState) :
    SysState × List MoveCall :=
  match msgs with
  | [] => (s, [])
  | m :: rest =>
    let r := callback m.1 m.2 s
    let r2 := clientLoop rest r.1
    (r2.1, r.2 ++ r2.2)

/-- One iteration of `loop()` (lines 95–100): `reconnect` when the
client is disconnected, then `client.loop()` dispatches the buffered
messages `msgs` to `callback`. -/
def loop (connected : Bool) (attempts : Nat → Bool) (fuel : Nat)
    (msgs : List (List Nat × List Nat)) (s : SysState) :
    Option (List MqttEvent) × SysState × List MoveCall :=
  let ev := if connected then some [] else (reconnect connected attempts fuel s).1
  let r := clientLoop msgs s
  (ev, r.1, r.2)

/-- `setup()` (lines 41–49) restricted to the modelled state:
`isServoOpen` starts `false` (line 21) and `myServo.write(servoClosePosition)`
(line 44) commands the closed position; the serial/WiFi/MQTT
configuration calls do not touch the modelled state.  Returns the boot
state together with the position writes issued during boot. -/
def setup : SysState × List Int :=
  ({ isServoOpen := false, servoPos := servoClosePosition }, [servoClosePosition])

/-- The flag/position invariant: `isServoOpen` holds exactly when the
last written position is the open endpoint, and fails exactly when it is
the closed endpoint. -/
def stateInv (s : SysState) : Prop :=
  (s.isServoOpen = true ↔ s.servoPos = servoOpenPosition) ∧
  (s.isServoOpen = false ↔ s.servoPos = servoClosePosition)

/-- The expected event trace of `n` consecutive failed connection
attempts starting at index `start`: each failed attempt is followed by a
5000 ms delay. -/
def failTrace (start n : Nat) : List MqttEvent :=
  match n with
  | 0 => []
  | Nat.succ m =>
    MqttEvent.connectAttempt start false :: MqttEvent.delayMs 5000 ::
      failTrace (start + 1) m

section Lemmas

lemma moveServoWrites_length (c t : Int) :
    (moveServoWrites c t).length = (t - c).natAbs + 1 := by
  unfold moveServoWrites
  by_cases h : c < t
  · rw [if_pos h, List.length_map, List.length_range]
    omega
  · rw [if_neg h, List.length_map, List.length_range]
    omega

lemma moveServoWrites_get (c t : Int) (i : Nat)
    (h : i < (moveServoWrites c t).length) :
    (moveServoWrites c t).get ⟨i, h⟩ =
      c + (if 0 < t - c then (i : Int) else -(i : Int)) := by
  have hiff : (0 < t - c) ↔ (c < t) := by omega
  rw [List.get_eq_getElem]
  by_cases hct : c < t
  · have hmem : moveServoWrites c t =
        (List.range ((t - c).toNat + 1)).map (fun j : Nat => c + (j : Int)) := by
      unfold moveServoWrites
      rw [if_pos hct]
    rw [hiff.symm] at hct
    rw [if_pos hct]
    conv in moveServoWrites c t => rw [hmem]
    rw [List.getElem_map, List.getElem_range]
  · have hmem : moveServoWrites c t =
        (List.range ((c - t).toNat + 1)).map (fun j : Nat => c - (j : Int)) := by
      unfold moveServoWrites
      rw [if_neg hct]
    rw [hiff.symm] at hct
    rw [if_neg hct]
    conv in moveServoWrites c t => rw [hmem]
    rw [List.getElem_map, List.getElem_range, sub_eq_add_neg]

lemma moveServoWrites_getLast (c t : Int) :
    (moveServoWrites c t).getLast? = some t := by
  unfold moveServoWrites
  by_cases h : c < t
  · rw [if_pos h, List.range_succ, List.map_append, List.map_cons, List.map_nil,
      List.getLast?_concat]
    congr 1
    omega
  · rw [if_neg h, List.range_succ, List.map_append, List.map_cons, List.map_nil,
      List.getLast?_concat]
    congr 1
    omega

lemma reconnectLoop_spec (attempts : Nat → Bool) :
    ∀ (n start fuel : Nat), (∀ i, i < n → attempts (start + i) = false) →
      attempts (start + n) = true → n < fuel →
      reconnectLoop attempts start fuel =
        some (failTrace start n ++
          [MqttEvent.connectAttempt (start + n) true,
           MqttEvent.subscribeTopic mqtt_topic]) := by
  intro n
  induction n with
  | zero =>
    intro start fuel _ hsucc hfuel
    match fuel, hfuel with
    | Nat.succ f, _ =>
      unfold reconnectLoop
      simp only [Nat.add_zero] at hsucc ⊢
      rw [if_pos hsucc]
      rfl
  | succ m ih =>
    intro start fuel hfail hsucc hfuel
    match fuel, hfuel with
    | Nat.succ f, hf =>
      unfold reconnectLoop
      have h0 : attempts start = false := by simpa using hfail 0 (Nat.succ_pos m)
      rw [if_neg (by simp [h0])]
      have hfail' : ∀ i, i < m → attempts (start + 1 + i) = false := by
        intro i hi
        have := hfail (i + 1) (Nat.succ_lt_succ hi)
        rw [show start + (i + 1) = start + 1 + i by omega] at this
        exact this
      have hsucc' : attempts (start + 1 + m) = true := by
        rw [show start + 1 + m = start + (m + 1) by omega]
        exact hsucc
      rw [ih (start + 1) f hfail' hsucc' (by omega)]
      rw [show start + 1 + m = start + (m + 1) by omega]
      rfl

lemma reconnectLoop_none (attempts : Nat → Bool) :
    ∀ (fuel start : Nat), (∀ i, i < fuel → attempts (start + i) = false) →
      reconnectLoop attempts start fuel = none := by
  intro fuel
  induction fuel with
  | zero => intro start _; rfl
  | succ f ih =>
    intro start hfail
    unfold reconnectLoop
    have h0 : attempts start = false := by simpa using hfail 0 (Nat.succ_pos f)
    rw [if_neg (by simp [h0])]
    rw [ih (start + 1) (fun i hi => by
      have := hfail (i + 1) (Nat.succ_lt_succ hi)
      rw [show start + (i + 1) = start + 1 + i by omega] at this
      exact this)]
    rfl

lemma clientLoop_no_trigger (msgs : List (List Nat × List Nat)) :
    ∀ s : SysState, (∀ m ∈ msgs, isTrigger m.2 = false) →
      clientLoop msgs s = (s, []) := by
  induction msgs with
  | nil => intro s _; rfl
  | cons m rest ih =>
    intro s h
    have hm : isTrigger m.2 = false := h m (List.mem_cons_self m rest)
    have hrest : ∀ m' ∈ rest, isTrigger m'.2 = false :=
      fun m' hm' => h m' (List.mem_cons_of_mem m hm')
    unfold clientLoop
    simp [callback, hm, ih s hrest]

end Lemmas

/-- C1: any payload equal, case-insensitively, to one of the three
trigger phrases makes a single callback invocation toggle exactly once:
from the open state it issues one `moveServo` call to
`servoClosePosition` and clears `isServoOpen`; from the closed state one
call to `servoOpenPosition` and sets `isServoOpen`. -/
theorem C1_trigger_toggles (topic payload : List Nat) (s : SysState)
    (h : isTrigger payload = true) :
    callback topic payload s =
      (if s.isServoOpen then
        (SysState.mk false servoClosePosition,
         [MoveCall.mk servoClosePosition
            (moveServoWrites s.servoPos servoClosePosition)])
       else
        (SysState.mk true servoOpenPosition,
         [MoveCall.mk servoOpenPosition
            (moveServoWrites s.servoPos servoOpenPosition)])) := by
  cases s with
  | mk o p => cases o <;> simp [callback, moveServo, h]

/-- Witness for C1 at the mixed-case payload `"HaLLoWeen 1"` from the
closed state at position 30. -/
theorem C1_trigger_toggles_witness :
    isTrigger [72, 97, 76, 76, 111, 87, 101, 101, 110, 32, 49] = true ∧
    callback [] [72, 97, 76, 76, 111, 87, 101, 101, 110, 32, 49]
        (SysState.mk false 30) =
      (if (SysState.mk false 30).isServoOpen then
        (SysState.mk false servoClosePosition,
         [MoveCall.mk servoClosePosition
            (moveServoWrites (SysState.mk false 30).servoPos servoClosePosition)])
       else
        (SysState.mk true servoOpenPosition,
         [MoveCall.mk servoOpenPosition
            (moveServoWrites (SysState.mk false 30).servoPos servoOpenPosition)])) :=
  ⟨by decide,
   C1_trigger_toggles [] [72, 97, 76, 76, 111, 87, 101, 101, 110, 32, 49]
     (SysState.mk false 30) (by decide)⟩

/-- C2: the writes of `moveServo` from current position `c` to target
`t` form a monotonic integer sequence from `c` to `t` inclusive with
step exactly 1, direction given solely by the sign of `t - c`: the
`i`-th write is `c + i` when `t - c > 0` and `c - i` otherwise. -/
theorem C2_monotonic_sweep (c t : Int) :
    (moveServoWrites c t).length = (t - c).natAbs + 1 ∧
    ∀ (i : Nat) (h : i < (moveServoWrites c t).length),
      (moveServoWrites c t).get ⟨i, h⟩ =
        c + (if 0 < t - c then (i : Int) else -(i : Int)) :=
  ⟨moveServoWrites_length c t, fun i h => moveServoWrites_get c t i h⟩

/-- Witness for C2 on the descending sweep from 140 to 30, at index 2. -/
theorem C2_monotonic_sweep_witness :
    (moveServoWrites 140 30).length = ((30 : Int) - 140).natAbs + 1 ∧
    (moveServoWrites 140 30).get ⟨2, by decide⟩ =
      140 + (if (0 : Int) < 30 - 140 then (2 : Int) else -(2 : Int)) :=
  ⟨(C2_monotonic_sweep 140 30).1, (C2_monotonic_sweep 140 30).2 2 (by decide)⟩

/-- C4: two consecutive trigger commands restore `isServoOpen` and
invoke the actuator driver exactly twice, with targets
close-then-open when starting open and open-then-close when starting
closed. -/
theorem C4_double_toggle (topic1 topic2 p1 p2 : List Nat) (s : SysState)
    (h1 : isTrigger p1 = true) (h2 : isTrigger p2 = true) :
    ((callback topic2 p2 (callback topic1 p1 s).1).1).isServoOpen = s.isServoOpen ∧
    ((callback topic1 p1 s).2 ++
        (callback topic2 p2 (callback topic1 p1 s).1).2).map MoveCall.target =
      (if s.isServoOpen then [servoClosePosition, servoOpenPosition]
       else [servoOpenPosition, servoClosePosition]) := by
  cases s with
  | mk o p => cases o <;> simp [callback, moveServo, h1, h2]

/-- Witness for C4: `"activate halloween 1"` then `"halloween 1"` from
the closed state at position 30. -/
theorem C4_double_toggle_witness :
    ((callback [] phraseHalloween1
        (callback [] phraseActivateHalloween1 (SysState.mk false 30)).1).1).isServoOpen =
      (SysState.mk false 30).isServoOpen ∧
    ((callback [] phraseActivateHalloween1 (SysState.mk false 30)).2 ++
        (callback [] phraseHalloween1
          (callback [] phraseActivateHalloween1 (SysState.mk false 30)).1).2).map
        MoveCall.target =
      (if (SysState.mk false 30).isServoOpen
       then [servoClosePosition, servoOpenPosition]
       else [servoOpenPosition, servoClosePosition]) :=
  C4_double_toggle [] [] phraseActivateHalloween1 phraseHalloween1
    (SysState.mk false 30) (by decide) (by decide)

/-- C5: entered while disconnected, `reconnect` returns exactly when a
connection attempt succeeds: if the first success is the `n`-th attempt
then (for any sufficient fuel) the trace is `n` failed attempts each
followed by a 5000 ms delay, then the successful attempt followed by the
subscription to the configured topic, after which it returns; and for
any fuel bound within which every attempt fails, the loop has not
returned (`none`) — there is no maximum retry count. -/
theorem C5_reconnect_retry (attempts : Nat → Bool) (s : SysState) :
    (∀ n fuel : Nat, (∀ i, i < n → attempts i = false) → attempts n = true →
        n < fuel →
        (reconnect false attempts fuel s).1 =
          some (failTrace 0 n ++
            [MqttEvent.connectAttempt n true,
             MqttEvent.subscribeTopic mqtt_topic])) ∧
    (∀ fuel : Nat, (∀ i, i < fuel → attempts i = false) →
        (reconnect false attempts fuel s).1 = none) := by
  constructor
  · intro n fuel hfail hsucc hfuel
    show reconnectLoop attempts 0 fuel = _
    have h := reconnectLoop_spec attempts n 0 fuel
      (fun i hi => by simpa using hfail i hi) (by simpa using hsucc) hfuel
    simpa using h
  · intro fuel hfail
    show reconnectLoop attempts 0 fuel = none
    exact reconnectLoop_none attempts fuel 0 (fun i hi => by simpa using hfail i hi)

/-- Witness for C5 with a broker that accepts the third attempt
(indices 0 and 1 fail, index 2 succeeds). -/
theorem C5_reconnect_retry_witness :
    (reconnect false (fun j => decide (j = 2)) 3 (SysState.mk false 30)).1 =
      some (failTrace 0 2 ++
        [MqttEvent.connectAttempt 2 true,
         MqttEvent.subscribeTopic mqtt_topic]) :=
  (C5_reconnect_retry (fun j => decide (j = 2)) (SysState.mk false 30)).1 2 3
    (by decide) (by decide) (by decide)

/-- C6: after setup, the system is closed: `isServoOpen` is `false` and
the last (indeed only) position commanded to the servo during boot is
`servoClosePosition`. -/
theorem C6_boot_closed :
    (setup.1).isServoOpen = false ∧
    (setup.1).servoPos = servoClosePosition ∧
    setup.2 = [servoClosePosition] := by
  refine ⟨rfl, rfl, rfl⟩

/-- C7: the message callback never inspects its topic argument — for the
same payload and starting state, any two topics produce identical
results (state and write sequence). -/
theorem C7_topic_independent (topic1 topic2 payload : List Nat) (s : SysState) :
    callback topic1 payload s = callback topic2 payload s := rfl

/-- C3: a payload that does not match any trigger phrase
case-insensitively leaves the state unchanged and issues no servo
writes. -/
theorem C3_nonmatch_noop (topic payload : List Nat) (s : SysState)
    (h : isTrigger payload = false) :
    callback topic payload s = (s, []) := by
  simp [callback, h]

/-- Witness for C3 at the partial match `"halloween 2"` from the closed
state. -/
theorem C3_nonmatch_noop_witness :
    isTrigger [104, 97, 108, 108, 111, 119, 101, 101, 110, 32, 50] = false ∧
    callback [] [104, 97, 108, 108, 111, 119, 101, 101, 110, 32, 50]
      ⟨false, 30⟩ = (⟨false, 30⟩, []) :=
  ⟨by decide,
   C3_nonmatch_noop [] [104, 97, 108, 108, 111, 119, 101, 101, 110, 32, 50]
     ⟨false, 30⟩ (by decide)⟩

/-- C10: `moveServo` issues exactly `|target − current| + 1` position
writes; when the target equals the current position it still issues
exactly one write, of the current position (the descending branch
runs). -/
theorem C10_write_count :
    (∀ c t : Int, (moveServoWrites c t).length = (t - c).natAbs + 1) ∧
    (∀ c : Int, moveServoWrites c c = [c]) := by
  constructor
  · exact moveServoWrites_length
  · intro c
    unfold moveServoWrites
    rw [if_neg (lt_irrefl c)]
    have h0 : (c - c).toNat = 0 := by omega
    rw [h0, List.range_succ, List.range_zero, List.nil_append, List.map_cons,
      List.map_nil]
    norm_num

/-- C8 counterexample: an execution of `loop` whose `client.loop()`
delivers the trigger payload `"halloween 1"` does change `isServoOpen`
(from `false` to `true`), so "`loop` never changes the value of
`isServoOpen`" is false as stated: the loop's message dispatch reaches
the callback's trigger handler. -/
theorem C8_loop_counterexample :
    (SysState.mk false 30).isServoOpen = false ∧
    ((loop true (fun _ => true) 0 [([], phraseHalloween1)]
        (SysState.mk false 30)).2.1).isServoOpen = true := by
  constructor
  · rfl
  · decide

/-- C8 amended: `isServoOpen` is mutated only by the callback's trigger
handler — `moveServo` and `reconnect` never change it, and `loop`
changes it only through the callback's handling of delivered messages:
whenever none of the delivered payloads matches a trigger phrase,
`loop` leaves `isServoOpen` unchanged. -/
theorem C8_frame_amended :
    (∀ (t : Int) (s : SysState),
       ((moveServo t s).1).isServoOpen = s.isServoOpen) ∧
    (∀ (connected : Bool) (attempts : Nat → Bool) (fuel : Nat) (s : SysState),
       ((reconnect connected attempts fuel s).2).isServoOpen = s.isServoOpen) ∧
    (∀ (connected : Bool) (attempts : Nat → Bool) (fuel : Nat)
       (msgs : List (List Nat × List Nat)) (s : SysState),
       (∀ m ∈ msgs, isTrigger m.2 = false) →
       ((loop connected attempts fuel msgs s).2.1).isServoOpen = s.isServoOpen) := by
  refine ⟨fun t s => rfl, fun connected attempts fuel s => rfl, ?_⟩
  intro connected attempts fuel msgs s h
  show ((clientLoop msgs s).1).isServoOpen = s.isServoOpen
  rw [clientLoop_no_trigger msgs s h]

/-- Witness for C8 amended: a loop iteration delivering only the
non-trigger payload `"halloween 2"` leaves `isServoOpen` unchanged. -/
theorem C8_frame_amended_witness :
    ((loop true (fun _ => true) 0
        [([], [104, 97, 108, 108, 111, 119, 101, 101, 110, 32, 50])]
        (SysState.mk false 30)).2.1).isServoOpen =
      (SysState.mk false 30).isServoOpen :=
  C8_frame_amended.2.2 true (fun _ => true) 0
    [([], [104, 97, 108, 108, 111, 119, 101, 101, 110, 32, 50])]
    (SysState.mk false 30) (by decide)

/-- C9: the flag/position invariant holds after boot and is preserved by
every completed callback invocation: `isServoOpen` is true exactly when
the last position written is `servoOpenPosition` and false exactly when
it is `servoClosePosition`; moreover the position recorded in the state
is always the last write `moveServo` issued. -/
theorem C9_flag_position_inv :
    stateInv setup.1 ∧
    (∀ (topic payload : List Nat) (s : SysState),
       stateInv s → stateInv (callback topic payload s).1) ∧
    (∀ (t : Int) (s : SysState),
       ((moveServo t s).2).writes.getLast? = some ((moveServo t s).1.servoPos)) := by
  refine ⟨?_, ?_, ?_⟩
  · simp only [stateInv, setup]
    decide
  · intro topic payload s hs
    by_cases ht : isTrigger payload = true
    · cases s with
      | mk o p =>
        cases o <;>
          simp [callback, moveServo, ht, stateInv, servoOpenPosition,
            servoClosePosition]
    · have ht' : isTrigger payload = false := by
        cases hb : isTrigger payload
        · rfl
        · exact absurd hb ht
      simpa [callback, ht'] using hs
  · intro t s
    exact moveServoWrites_getLast s.servoPos t

/-- Witness for C9: the invariant holds at the boot state and is
preserved by the callback handling `"halloween 1"` there. -/
theorem C9_flag_position_inv_witness :
    stateInv (callback [] phraseHalloween1 (SysState.mk false 30)).1 :=
  C9_flag_position_inv.2.1 [] phraseHalloween1 (SysState.mk false 30)
    (by simp only [stateInv]; decide)

end RicksWrist
